import Mathlib

/-!
Shallow embedding of src/app/src/main/jni/native-audio-bridge.cpp, the
GStreamer-based pipeline lifecycle manager of the HeavenWaves app.

The C file keeps one global PipelineState g_state and exposes
init_pipeline / start_pipeline / feed_audio_data / stop_pipeline /
cleanup_pipeline / get_last_error plus the bus callback
bus_message_callback.  Here the mutable global is threaded explicitly as a
World value; calls into GStreamer, pthread and JNI that can fail or return
data are modelled by environment records (one Bool or value per external
call outcome), and every externally visible action (sending EOS, the timed
bus wait, state changes, thread operations, buffer accesses) is recorded in
an effect trace so that claims about side effects and blocking are
statable.  GStreamer object ownership is modelled by an allocation list
(alive object handles) together with the set of elements that were added to
the pipeline bin: unreffing the pipeline releases the pipeline and exactly
the bin members, as gst_object_unref does for a GstBin.
-/

namespace NativeAudioBridge

/-- Handles of the objects the bridge allocates: the pipeline bin, the six
elements of the chain and the GLib main loop. -/
inductive Res
  | pipelineRes
  | appsrcRes
  | audioconvertRes
  | audioresampleRes
  | opusencRes
  | oggmuxRes
  | filesinkRes
  | mainLoopRes
deriving DecidableEq, Repr

/-- Observable effects of one call, in program order.  busTimedPop carries
the timeout in nanoseconds passed to gst_bus_timed_pop_filtered; memcpyData
carries the bytes copied out of the caller's buffer. -/
inductive Eff
  | sendEOS
  | busTimedPop (timeoutNs : Nat)
  | unrefMsg
  | setStateNull
  | setStatePlaying
  | quitLoop
  | joinThread
  | newLoop
  | unrefLoop
  | spawnThread
  | addBusWatch
  | unrefPipeline
  | getByteArray
  | releaseByteArray
  | allocGstBuffer
  | mapGstBuffer
  | unmapGstBuffer
  | memcpyData (bytes : List Int)
  | unrefGstBuffer
  | pushBuffer
deriving DecidableEq, Repr

/-- The PipelineState struct of the C file.  GstElement and GMainLoop
pointers become Bools (null or set); the pthread_t becomes a running flag;
last_error is the std.string guarded by error_mutex; output_location models
the location property set on the filesink. -/
structure PipelineState where
  pipeline : Bool
  appsrc : Bool
  audioconvert : Bool
  audioresample : Bool
  opusenc : Bool
  oggmux : Bool
  filesink : Bool
  main_loop : Bool
  loop_thread_running : Bool
  sample_rate : Int
  channels : Int
  bitrate : Int
  is_initialized : Bool
  is_playing : Bool
  mutex_initialized : Bool
  last_error : String
  output_location : String
deriving DecidableEq, Repr

/-- Manager state together with the ownership heap: alloc lists the alive
GStreamer/GLib objects, bin lists the elements owned by the pipeline bin
(gst_bin_add_many transfers their references to the bin, so unreffing the
pipeline releases exactly the bin members with it). -/
structure World where
  st : PipelineState
  alloc : List Res
  bin : List Res
deriving DecidableEq, Repr

/-- static PipelineState g_state = \x7b0\x7d: everything zeroed. -/
def initialState : PipelineState where
  pipeline := false
  appsrc := false
  audioconvert := false
  audioresample := false
  opusenc := false
  oggmux := false
  filesink := false
  main_loop := false
  loop_thread_running := false
  sample_rate := 0
  channels := 0
  bitrate := 0
  is_initialized := false
  is_playing := false
  mutex_initialized := false
  last_error := ""
  output_location := ""

def world0 : World := { st := initialState, alloc := [], bin := [] }

/-- GST_SECOND in nanoseconds. -/
def GST_SECOND : Nat := 1000000000

/-- GST_FLOW_OK is 0 in GstFlowReturn. -/
def GST_FLOW_OK : Int := 0

/-- What gst_bus_timed_pop_filtered returned inside stop_pipeline: an EOS
message, an error message, or none on timeout. -/
inductive BusMsg
  | eos
  | error (msg : String)
deriving DecidableEq, Repr

/-- Environment outcome for one stop_pipeline call. -/
structure StopEnv where
  busMsg : Option BusMsg
deriving DecidableEq, Repr

/-- stop_pipeline (lines 292-349).  Early-returns when not initialized;
otherwise clears is_playing, sends EOS to the appsrc when present, does a
timed bus pop bounded by 3 * GST_SECOND when the pipeline is present (the
received message is only logged and unreffed, never stored), forces the
pipeline to the NULL state, and, when the main loop exists, quits it, joins
the loop thread and unrefs the loop.  It never releases the pipeline graph. -/
def stop_pipeline (env : StopEnv) (w : World) : World × List Eff :=
  if w.st.is_initialized = false then
    (w, [])
  else
    let st1 := { w.st with is_playing := false }
    let effs1 : List Eff := if st1.appsrc then [Eff.sendEOS] else []
    let effs2 : List Eff :=
      if st1.pipeline then
        Eff.busTimedPop (3 * GST_SECOND) ::
          (match env.busMsg with
           | some _ => [Eff.unrefMsg]
           | none => [])
      else []
    let effs3 : List Eff := if st1.pipeline then [Eff.setStateNull] else []
    if st1.main_loop then
      ({ w with
          st := { st1 with main_loop := false, loop_thread_running := false },
          alloc := w.alloc.filter (fun r => !(r == Res.mainLoopRes)) },
       effs1 ++ effs2 ++ effs3 ++ [Eff.quitLoop, Eff.joinThread, Eff.unrefLoop])
    else
      ({ w with st := st1 }, effs1 ++ effs2 ++ effs3)

/-- cleanup_pipeline (lines 354-378).  Stops first when playing, unrefs the
pipeline when present (releasing the pipeline object and the bin members,
but nothing else), nulls the element pointers and clears the flags. -/
def cleanup_pipeline (env : StopEnv) (w : World) : World × List Eff :=
  let stopped := if w.st.is_playing then stop_pipeline env w else (w, [])
  let w1 := stopped.1
  let unrefd : World × List Eff :=
    if w1.st.pipeline then
      ({ w1 with
          st := { w1.st with pipeline := false },
          alloc := w1.alloc.filter
            (fun r => !(r == Res.pipelineRes) && !(w1.bin.contains r)),
          bin := [] },
       [Eff.unrefPipeline])
    else (w1, [])
  let w2 := unrefd.1
  ({ w2 with
      st := { w2.st with
        appsrc := false, audioconvert := false, audioresample := false,
        opusenc := false, oggmux := false, filesink := false,
        is_initialized := false, is_playing := false } },
   stopped.2 ++ unrefd.2)

/-- Environment outcomes for one init_pipeline call: whether each
gst_pipeline_new / gst_element_factory_make call and the
gst_element_link_many call succeed, plus the bus-wait outcomes of the up
to two cleanup_pipeline calls init can make (entry cleanup of a previous
session, and failure-path cleanup). -/
structure InitEnv where
  pipelineOk : Bool
  appsrcOk : Bool
  audioconvertOk : Bool
  audioresampleOk : Bool
  opusencOk : Bool
  oggmuxOk : Bool
  filesinkOk : Bool
  linkOk : Bool
  stopEnvEntry : StopEnv
  stopEnvFail : StopEnv
deriving DecidableEq, Repr

/-- The six chain elements in the order gst_bin_add_many receives them. -/
def binElements : List Res :=
  [Res.appsrcRes, Res.audioconvertRes, Res.audioresampleRes,
   Res.opusencRes, Res.oggmuxRes, Res.filesinkRes]

/-- Allocate handle r when its creation call succeeded. -/
def allocIf (ok : Bool) (r : Res) (l : List Res) : List Res :=
  if ok then r :: l else l

/-- init_pipeline (lines 59-174).  Initializes the mutex flag, cleans up an
already-initialized session, creates the pipeline and the six elements
(each factory call allocates on success, the struct pointer records
success), and fails with the element-creation message and a cleanup when
any is null.  Otherwise it configures the elements (caps and properties,
of which the filesink location is kept in the model), adds the six
elements to the bin, links them - failing with the link message and a
cleanup - then installs the bus watch, stores the configuration and marks
the session initialized and not playing. -/
def init_pipeline (env : InitEnv) (sample_rate channels : Int)
    (output_path : String) (bitrate : Int) (w0 : World) :
    Bool × World × List Eff :=
  let w := { w0 with st := { w0.st with mutex_initialized := true } }
  let cleaned := if w.st.is_initialized then cleanup_pipeline env.stopEnvEntry w else (w, [])
  let w1 := cleaned.1
  let alloc2 :=
    allocIf env.filesinkOk Res.filesinkRes
      (allocIf env.oggmuxOk Res.oggmuxRes
        (allocIf env.opusencOk Res.opusencRes
          (allocIf env.audioresampleOk Res.audioresampleRes
            (allocIf env.audioconvertOk Res.audioconvertRes
              (allocIf env.appsrcOk Res.appsrcRes
                (allocIf env.pipelineOk Res.pipelineRes w1.alloc))))))
  let st2 := { w1.st with
    pipeline := env.pipelineOk, appsrc := env.appsrcOk,
    audioconvert := env.audioconvertOk, audioresample := env.audioresampleOk,
    opusenc := env.opusencOk, oggmux := env.oggmuxOk,
    filesink := env.filesinkOk }
  let w2 : World := { w1 with st := st2, alloc := alloc2 }
  if !(env.pipelineOk && env.appsrcOk && env.audioconvertOk &&
       env.audioresampleOk && env.opusencOk && env.oggmuxOk &&
       env.filesinkOk) then
    let w3 : World := { w2 with st := { w2.st with
      last_error := "Failed to create one or more GStreamer elements. Check if required plugins (opus, ogg) are available." } }
    let cl := cleanup_pipeline env.stopEnvFail w3
    (false, cl.1, cleaned.2 ++ cl.2)
  else
    let w3 : World := { w2 with
      st := { w2.st with output_location := output_path },
      bin := binElements }
    if env.linkOk = false then
      let w4 : World := { w3 with st := { w3.st with
        last_error := "Failed to link GStreamer pipeline elements" } }
      let cl := cleanup_pipeline env.stopEnvFail w4
      (false, cl.1, cleaned.2 ++ cl.2)
    else
      let st5 := { w3.st with
        sample_rate := sample_rate, channels := channels, bitrate := bitrate,
        is_initialized := true, is_playing := false }
      (true, { w3 with st := st5 }, cleaned.2 ++ [Eff.addBusWatch])

/-- Environment outcomes for one start_pipeline call: whether
pthread_create succeeds and whether gst_element_set_state to PLAYING is
refused (GST_STATE_CHANGE_FAILURE). -/
structure StartEnv where
  threadOk : Bool
  setPlayingOk : Bool
deriving DecidableEq, Repr

/-- start_pipeline (lines 179-233).  Fails when not initialized; succeeds
as a no-op when already playing; otherwise creates the main loop, spawns
the loop thread - on pthread_create failure unrefs the loop and fails -
and sets the pipeline to PLAYING - on GST_STATE_CHANGE_FAILURE quits the
loop, joins the thread, unrefs the loop and fails.  On success marks the
session playing. -/
def start_pipeline (env : StartEnv) (w : World) : Bool × World × List Eff :=
  if w.st.is_initialized = false then
    (false,
     { w with st := { w.st with last_error := "Pipeline not initialized" } },
     [])
  else if w.st.is_playing then
    (true, w, [])
  else
    let w1 : World := { w with
      st := { w.st with main_loop := true },
      alloc := Res.mainLoopRes :: w.alloc }
    if env.threadOk = false then
      (false,
       { w1 with
          st := { w1.st with
            last_error := "Failed to create main loop thread",
            main_loop := false },
          alloc := w1.alloc.filter (fun r => !(r == Res.mainLoopRes)) },
       [Eff.newLoop, Eff.unrefLoop])
    else
      let w2 : World := { w1 with st := { w1.st with loop_thread_running := true } }
      if env.setPlayingOk = false then
        (false,
         { w2 with
            st := { w2.st with
              last_error := "Failed to set pipeline to PLAYING state",
              main_loop := false, loop_thread_running := false },
            alloc := w2.alloc.filter (fun r => !(r == Res.mainLoopRes)) },
         [Eff.newLoop, Eff.spawnThread, Eff.setStatePlaying,
          Eff.quitLoop, Eff.joinThread, Eff.unrefLoop])
      else
        (true,
         { w2 with st := { w2.st with is_playing := true } },
         [Eff.newLoop, Eff.spawnThread, Eff.setStatePlaying])

/-- Environment outcomes for one feed_audio_data call: whether
GetByteArrayElements returns data, whether gst_buffer_new_allocate and
gst_buffer_map succeed, and the GstFlowReturn of gst_app_src_push_buffer. -/
structure FeedEnv where
  getBufferOk : Bool
  allocOk : Bool
  mapOk : Bool
  flowRet : Int
deriving DecidableEq, Repr

/-- feed_audio_data (lines 238-287).  Returns JNI_TRUE immediately, before
touching the buffer, when not playing.  Otherwise pins the Java array,
allocates and maps a GstBuffer (each failure releasing what was acquired
and returning JNI_FALSE without state change), copies size bytes, releases
the array and pushes the buffer; a non-OK flow return stores the flow
error message and returns JNI_FALSE. -/
def feed_audio_data (env : FeedEnv) (buffer : List Int) (size : Int)
    (w : World) : Bool × World × List Eff :=
  if w.st.is_playing = false then
    (true, w, [])
  else if env.getBufferOk = false then
    (false, w, [Eff.getByteArray])
  else if env.allocOk = false then
    (false, w, [Eff.getByteArray, Eff.allocGstBuffer, Eff.releaseByteArray])
  else if env.mapOk = false then
    (false, w,
     [Eff.getByteArray, Eff.allocGstBuffer, Eff.mapGstBuffer,
      Eff.unrefGstBuffer, Eff.releaseByteArray])
  else
    let effs : List Eff :=
      [Eff.getByteArray, Eff.allocGstBuffer, Eff.mapGstBuffer,
       Eff.memcpyData (buffer.take size.toNat), Eff.unmapGstBuffer,
       Eff.releaseByteArray, Eff.pushBuffer]
    if env.flowRet = GST_FLOW_OK then
      (true, w, effs)
    else
      (false,
       { w with st := { w.st with
          last_error := "Failed to push buffer to pipeline (flow error: " ++
            (toString env.flowRet ++ ")") } },
       effs)

/-- get_last_error (lines 383-388): snapshot of last_error under the lock. -/
def get_last_error (w : World) : String := w.st.last_error

/-- Bus messages the callback distinguishes. -/
inductive GstMsg
  | error (m : String)
  | warning (m : String)
  | eos
  | stateChanged (fromPipeline : Bool)
  | other
deriving DecidableEq, Repr

/-- bus_message_callback (lines 393-455).  An ERROR message stores the
prefixed message into last_error under the lock and quits the main loop
when it exists; a WARNING message is only logged; EOS quits the main loop
without touching last_error; STATE_CHANGED and everything else are
logged or ignored.  The callback always returns TRUE to keep the watch. -/
def bus_message_callback (msg : GstMsg) (w : World) : Bool × World × List Eff :=
  match msg with
  | GstMsg.error m =>
      (true,
       { w with st := { w.st with last_error := "GStreamer Error: " ++ m } },
       if w.st.main_loop then [Eff.quitLoop] else [])
  | GstMsg.warning _ => (true, w, [])
  | GstMsg.eos => (true, w, if w.st.main_loop then [Eff.quitLoop] else [])
  | GstMsg.stateChanged _ => (true, w, [])
  | GstMsg.other => (true, w, [])

/-- The SessionState of the spec, read off the two flags: Playing when
is_playing, else Initialized when is_initialized, else Uninitialized (the
code realizes the Stopped state of the spec as Initialized-and-not-playing). -/
inductive SessionState
  | Uninitialized
  | Initialized
  | Playing
deriving DecidableEq, Repr

def sessionState (st : PipelineState) : SessionState :=
  if st.is_playing then SessionState.Playing
  else if st.is_initialized then SessionState.Initialized
  else SessionState.Uninitialized

/-- True exactly on the timed-wait effect. -/
def isTimedWait : Eff → Bool
  | Eff.busTimedPop _ => true
  | _ => false

/-- Bus-wait outcome: timeout. -/
def msgNone : StopEnv := { busMsg := none }

/-- Bus-wait outcome: EOS received. -/
def msgEos : StopEnv := { busMsg := some BusMsg.eos }

/-- All construction calls succeed. -/
def happyInitEnv : InitEnv :=
  { pipelineOk := true, appsrcOk := true, audioconvertOk := true,
    audioresampleOk := true, opusencOk := true, oggmuxOk := true,
    filesinkOk := true, linkOk := true,
    stopEnvEntry := msgNone, stopEnvFail := msgNone }

/-- The world after a successful initialize(48000, 2, "/tmp/out.ogg", 128000)
from the zeroed global state. -/
def wInit : World :=
  (init_pipeline happyInitEnv 48000 2 "/tmp/out.ogg" 128000 world0).2.1

/-- Thread creation and the PLAYING transition both succeed. -/
def happyStartEnv : StartEnv := { threadOk := true, setPlayingOk := true }

/-- The world after a successful start() on wInit. -/
def wPlay : World := (start_pipeline happyStartEnv wInit).2.1

/-- Every JNI/GStreamer call inside feed succeeds, flow OK. -/
def feedEnvOk : FeedEnv :=
  { getBufferOk := true, allocOk := true, mapOk := true, flowRet := 0 }

/-- Everything inside feed fails (buffer pin, allocation, mapping, flow). -/
def feedEnvAllFail : FeedEnv :=
  { getBufferOk := false, allocOk := false, mapOk := false, flowRet := -5 }

/-- The push is rejected with GST_FLOW_ERROR = -5. -/
def feedEnvFlowErr : FeedEnv :=
  { getBufferOk := true, allocOk := true, mapOk := true, flowRet := -5 }

/-- Thread creation succeeds but the engine refuses the PLAYING transition. -/
def startEnvReject : StartEnv := { threadOk := true, setPlayingOk := false }

/-- A string with a nonempty left part is nonempty. -/
lemma append_left_ne_empty (s t : String) (hs : s.length ≠ 0) : s ++ t ≠ "" := by
  intro h
  have h2 := congrArg String.length h
  rw [String.length_append] at h2
  have h0 : String.length "" = 0 := rfl
  rw [h0] at h2
  omega

/-- stop_pipeline never writes last_error (the shutdown-time error message
is only logged). -/
lemma stop_preserves_error (env : StopEnv) (w : World) :
    (stop_pipeline env w).1.st.last_error = w.st.last_error := by
  obtain ⟨st, alloc, bin⟩ := w
  by_cases hi : st.is_initialized
  · by_cases hm : st.main_loop <;> simp [stop_pipeline, hi, hm]
  · simp [stop_pipeline, hi]

/-- cleanup_pipeline never writes last_error. -/
lemma cleanup_preserves_error (env : StopEnv) (w : World) :
    (cleanup_pipeline env w).1.st.last_error = w.st.last_error := by
  by_cases hp : w.st.is_playing
  · by_cases hq : (stop_pipeline env w).1.st.pipeline <;>
      simp [cleanup_pipeline, hp, hq, stop_preserves_error]
  · by_cases hq : w.st.pipeline <;> simp [cleanup_pipeline, hp, hq]

/-- C1, counterexample: after stop() on the session started from a
successful initialize and start, the pipeline graph is NOT released - the
pipeline pointer is still set, the pipeline object is still allocated, the
six elements are still owned by the bin, and the manager still reports
itself initialized, contradicting a shutdown that ends by releasing all
PipelineGraph resources. -/
theorem stop_retains_graph_cex :
    (stop_pipeline msgEos wPlay).1.st.pipeline = true ∧
    Res.pipelineRes ∈ (stop_pipeline msgEos wPlay).1.alloc ∧
    (stop_pipeline msgEos wPlay).1.bin = binElements ∧
    (stop_pipeline msgEos wPlay).1.st.is_initialized = true := by decide

/-- C1, amended: on an initialized session (with no stale dispatch thread
surviving without its main loop), stop() completes steps (1)-(5) of the
shutdown protocol - clears is_playing, stops and joins the dispatch
context - but not step (6): it leaves the pipeline pointer, the pipeline
allocation and the bin ownership exactly as they were, so the constructed
graph remains owned by the manager until the next initialize runs
cleanup_pipeline. -/
theorem stop_retains_graph (env : StopEnv) (w : World)
    (hinit : w.st.is_initialized = true)
    (hth : w.st.loop_thread_running = true → w.st.main_loop = true) :
    (stop_pipeline env w).1.st.is_playing = false ∧
    (stop_pipeline env w).1.st.main_loop = false ∧
    (stop_pipeline env w).1.st.loop_thread_running = false ∧
    (stop_pipeline env w).1.st.pipeline = w.st.pipeline ∧
    (stop_pipeline env w).1.st.is_initialized = true ∧
    (Res.pipelineRes ∈ (stop_pipeline env w).1.alloc ↔
      Res.pipelineRes ∈ w.alloc) ∧
    (stop_pipeline env w).1.bin = w.bin := by
  obtain ⟨st, alloc, bin⟩ := w
  simp only at hinit hth
  by_cases hm : st.main_loop
  · simp [stop_pipeline, hinit, hm, List.mem_filter]
  · have hlt : st.loop_thread_running = false := by
      cases h : st.loop_thread_running
      · rfl
      · exact absurd (hth h) hm
    simp [stop_pipeline, hinit, hm, hlt]

/-- C1, witness for the amended theorem at the started session. -/
theorem stop_retains_graph_witness :
    wPlay.st.is_initialized = true ∧
    (wPlay.st.loop_thread_running = true → wPlay.st.main_loop = true) ∧
    ((stop_pipeline msgNone wPlay).1.st.is_playing = false ∧
     (stop_pipeline msgNone wPlay).1.st.main_loop = false ∧
     (stop_pipeline msgNone wPlay).1.st.loop_thread_running = false ∧
     (stop_pipeline msgNone wPlay).1.st.pipeline = wPlay.st.pipeline ∧
     (stop_pipeline msgNone wPlay).1.st.is_initialized = true ∧
     (Res.pipelineRes ∈ (stop_pipeline msgNone wPlay).1.alloc ↔
       Res.pipelineRes ∈ wPlay.alloc) ∧
     (stop_pipeline msgNone wPlay).1.bin = wPlay.bin) :=
  ⟨by decide, by decide,
   stop_retains_graph msgNone wPlay (by decide) (by decide)⟩

/-- C2, counterexample: a second stop() right after the first is not a
no-op - because the guard only checks is_initialized (which stop leaves
true), the second call again sends EOS to the appsrc, again blocks on the
timed bus pop, and again forces the NULL state, so its effect trace is
nonempty. -/
theorem stop_second_call_not_noop_cex :
    (stop_pipeline msgNone (stop_pipeline msgEos wPlay).1).2 ≠ [] ∧
    Eff.sendEOS ∈ (stop_pipeline msgNone (stop_pipeline msgEos wPlay).1).2 ∧
    Eff.busTimedPop (3 * GST_SECOND) ∈
      (stop_pipeline msgNone (stop_pipeline msgEos wPlay).1).2 := by decide

/-- C2, amended: stop() is idempotent on the resulting state - for every
state and any bus-wait outcomes, the state after two consecutive stop()
calls equals the state after one (in particular SessionState and
ErrorRecord agree) - but the second call is not a no-op: while the session
is still initialized it re-runs the shutdown sequence, re-sending EOS and
re-blocking on the bounded bus wait. -/
theorem stop_state_idempotent (env1 env2 : StopEnv) (w : World) :
    (stop_pipeline env2 (stop_pipeline env1 w).1).1 = (stop_pipeline env1 w).1 := by
  obtain ⟨st, alloc, bin⟩ := w
  by_cases hi : st.is_initialized
  · by_cases hm : st.main_loop <;> simp [stop_pipeline, hi, hm]
  · simp [stop_pipeline, hi]

/-- C3: for every buffer, size and environment outcome, feed called while
the session is not Playing returns success and leaves both the
SessionState and the ErrorRecord unchanged (in fact the whole state is
unchanged). -/
theorem feed_not_playing_success (env : FeedEnv) (buffer : List Int)
    (size : Int) (w : World) (h : w.st.is_playing = false) :
    (feed_audio_data env buffer size w).1 = true ∧
    sessionState (feed_audio_data env buffer size w).2.1.st = sessionState w.st ∧
    (feed_audio_data env buffer size w).2.1.st.last_error = w.st.last_error ∧
    (feed_audio_data env buffer size w).2.1 = w := by
  simp [feed_audio_data, h]

/-- C3, witness: feed on the zeroed (never-started) state. -/
theorem feed_not_playing_success_witness :
    world0.st.is_playing = false ∧
    ((feed_audio_data feedEnvOk [1, 2, 3] 3 world0).1 = true ∧
     sessionState (feed_audio_data feedEnvOk [1, 2, 3] 3 world0).2.1.st =
       sessionState world0.st ∧
     (feed_audio_data feedEnvOk [1, 2, 3] 3 world0).2.1.st.last_error =
       world0.st.last_error ∧
     (feed_audio_data feedEnvOk [1, 2, 3] 3 world0).2.1 = world0) :=
  ⟨by decide, feed_not_playing_success feedEnvOk [1, 2, 3] 3 world0 (by decide)⟩

/-- C4: whenever start() returns failure on a state with no pre-existing
dispatch context (no main loop, no running loop thread - the situation in
every state start can actually run from - and playing only when
initialized), the returned state has no running loop thread, no main loop
and is not Playing: the thread-creation-failure branch and the
engine-rejects-PLAYING branch both roll the dispatch context back before
returning. -/
theorem start_failure_no_dangling_thread (env : StartEnv) (w : World)
    (hml : w.st.main_loop = false) (hlt : w.st.loop_thread_running = false)
    (hpi : w.st.is_playing = true → w.st.is_initialized = true)
    (hfail : (start_pipeline env w).1 = false) :
    (start_pipeline env w).2.1.st.loop_thread_running = false ∧
    (start_pipeline env w).2.1.st.main_loop = false ∧
    (start_pipeline env w).2.1.st.is_playing = false := by
  by_cases hi : w.st.is_initialized
  · have hip : w.st.is_playing = false := by
      rcases hp : (start_pipeline env w).1 with _ | _
      · by_cases hp2 : w.st.is_playing
        · simp [start_pipeline, hi, hp2] at hp
        · simpa using hp2
      · exact absurd hp (by simp [hfail])
    rcases ht : env.threadOk with _ | _
    · simp [start_pipeline, hi, hip, ht, hlt]
    · rcases hs : env.setPlayingOk with _ | _
      · simp [start_pipeline, hi, hip, ht, hs]
      · exact absurd hfail (by simp [start_pipeline, hi, hip, ht, hs])
  · have hip : w.st.is_playing = false := by
      cases hp2 : w.st.is_playing
      · rfl
      · exact absurd (hpi hp2) hi
    simp [start_pipeline, hi, hml, hlt, hip]

/-- C4, witness: the engine refuses the PLAYING transition on the
initialized session. -/
theorem start_failure_no_dangling_thread_witness :
    wInit.st.main_loop = false ∧
    wInit.st.loop_thread_running = false ∧
    (wInit.st.is_playing = true → wInit.st.is_initialized = true) ∧
    (start_pipeline startEnvReject wInit).1 = false ∧
    ((start_pipeline startEnvReject wInit).2.1.st.loop_thread_running = false ∧
     (start_pipeline startEnvReject wInit).2.1.st.main_loop = false ∧
     (start_pipeline startEnvReject wInit).2.1.st.is_playing = false) :=
  ⟨by decide, by decide, by decide, by decide,
   start_failure_no_dangling_thread startEnvReject wInit
     (by decide) (by decide) (by decide) (by decide)⟩

/-- C8: a per-chunk ingestion failure is non-fatal - for every feed call
on a Playing, initialized session (whatever the environment outcome, so in
particular on the buffer-pin, allocation, mapping and flow-rejection
failure paths), the returned state is still Playing and still initialized;
only the last_error string may change. -/
theorem feed_failure_preserves_session (env : FeedEnv) (buffer : List Int)
    (size : Int) (w : World)
    (hp : w.st.is_playing = true) (hi : w.st.is_initialized = true)
    (_hfail : (feed_audio_data env buffer size w).1 = false) :
    (feed_audio_data env buffer size w).2.1.st.is_playing = true ∧
    (feed_audio_data env buffer size w).2.1.st.is_initialized = true ∧
    sessionState (feed_audio_data env buffer size w).2.1.st =
      SessionState.Playing := by
  rcases hg : env.getBufferOk with _ | _
  · simp [feed_audio_data, sessionState, hp, hi, hg]
  · rcases ha : env.allocOk with _ | _
    · simp [feed_audio_data, sessionState, hp, hi, hg, ha]
    · rcases hm : env.mapOk with _ | _
      · simp [feed_audio_data, sessionState, hp, hi, hg, ha, hm]
      · by_cases hf : env.flowRet = GST_FLOW_OK <;>
          simp [feed_audio_data, sessionState, hp, hi, hg, ha, hm, hf]

/-- C8, witness: a flow rejection (GST_FLOW_ERROR = -5) while Playing. -/
theorem feed_failure_preserves_session_witness :
    wPlay.st.is_playing = true ∧
    wPlay.st.is_initialized = true ∧
    (feed_audio_data feedEnvFlowErr [0, 0] 2 wPlay).1 = false ∧
    ((feed_audio_data feedEnvFlowErr [0, 0] 2 wPlay).2.1.st.is_playing = true ∧
     (feed_audio_data feedEnvFlowErr [0, 0] 2 wPlay).2.1.st.is_initialized = true ∧
     sessionState (feed_audio_data feedEnvFlowErr [0, 0] 2 wPlay).2.1.st =
       SessionState.Playing) :=
  ⟨by decide, by decide, by decide,
   feed_failure_preserves_session feedEnvFlowErr [0, 0] 2 wPlay
     (by decide) (by decide) (by decide)⟩

/-- C10: when the session is not Playing, feed returns success with an
empty effect trace - no GetByteArrayElements, no mapping, no copy, nothing
touching the supplied buffer happens - and the whole result is the same
for any two buffer arguments and any size, so the early return is taken
before any use of the buffer. -/
theorem feed_not_playing_no_buffer_access (env : FeedEnv) (b1 b2 : List Int)
    (size : Int) (w : World) (h : w.st.is_playing = false) :
    (feed_audio_data env b1 size w).2.2 = [] ∧
    feed_audio_data env b1 size w = feed_audio_data env b2 size w ∧
    (feed_audio_data env b1 size w).1 = true := by
  simp [feed_audio_data, h]

/-- C10, witness: two different buffers (one empty, standing in for an
absent one) on the never-started state give the identical successful,
effect-free result. -/
theorem feed_not_playing_no_buffer_access_witness :
    world0.st.is_playing = false ∧
    ((feed_audio_data feedEnvAllFail [] 960 world0).2.2 = [] ∧
     feed_audio_data feedEnvAllFail [] 960 world0 =
       feed_audio_data feedEnvAllFail [7, 7, 7] 960 world0 ∧
     (feed_audio_data feedEnvAllFail [] 960 world0).1 = true) :=
  ⟨by decide,
   feed_not_playing_no_buffer_access feedEnvAllFail [] [7, 7, 7] 960 world0
     (by decide)⟩

/-- Element creation fails for the filesink, everything else succeeds. -/
def failSinkEnv : InitEnv :=
  { pipelineOk := true, appsrcOk := true, audioconvertOk := true,
    audioresampleOk := true, opusencOk := true, oggmuxOk := true,
    filesinkOk := false, linkOk := true,
    stopEnvEntry := msgNone, stopEnvFail := msgNone }

/-- Result of initialize from the zeroed state when the filesink cannot be
created. -/
def failSinkRun : Bool × World × List Eff :=
  init_pipeline failSinkEnv 48000 2 "/tmp/out.ogg" 128000 world0

/-- C5: when element creation fails (filesink missing, the other six
creations succeeded), initialize returns failure, records a nonempty
ErrorRecord, leaves the manager Uninitialized with no dispatch context,
and the pipeline bin itself is released - but the teardown is incomplete:
the already-created elements were never added to the bin, so
cleanup_pipeline's unref of the pipeline does not release them; their
handles stay allocated while the struct pointers are nulled, leaking them
(the cleanup comment claiming they were unreferenced with the pipeline is
wrong on this path). -/
theorem init_element_failure_leaks :
    failSinkRun.1 = false ∧
    failSinkRun.2.1.st.is_initialized = false ∧
    sessionState failSinkRun.2.1.st = SessionState.Uninitialized ∧
    failSinkRun.2.1.st.last_error ≠ "" ∧
    failSinkRun.2.1.st.main_loop = false ∧
    failSinkRun.2.1.st.loop_thread_running = false ∧
    Res.pipelineRes ∉ failSinkRun.2.1.alloc ∧
    Res.appsrcRes ∈ failSinkRun.2.1.alloc ∧
    Res.audioconvertRes ∈ failSinkRun.2.1.alloc ∧
    Res.audioresampleRes ∈ failSinkRun.2.1.alloc ∧
    Res.opusencRes ∈ failSinkRun.2.1.alloc ∧
    Res.oggmuxRes ∈ failSinkRun.2.1.alloc ∧
    failSinkRun.2.1.st.appsrc = false := by decide

/-- C6: for an event arriving while the dispatch loop exists, the bus
callback treats an Error message by overwriting ErrorRecord with the
prefixed message and quitting the main loop (terminating dispatch), a
Warning message by logging only (state untouched, loop kept), and an
EndOfStream message by quitting the loop without touching ErrorRecord;
it always returns TRUE to keep the subscription. -/
theorem bus_callback_event_dispatch (m : String) (w : World)
    (h : w.st.main_loop = true) :
    ((bus_message_callback (GstMsg.error m) w).2.1.st.last_error =
       "GStreamer Error: " ++ m) ∧
    Eff.quitLoop ∈ (bus_message_callback (GstMsg.error m) w).2.2 ∧
    (bus_message_callback (GstMsg.error m) w).1 = true ∧
    (bus_message_callback (GstMsg.warning m) w).2.1 = w ∧
    Eff.quitLoop ∉ (bus_message_callback (GstMsg.warning m) w).2.2 ∧
    (bus_message_callback GstMsg.eos w).2.1 = w ∧
    Eff.quitLoop ∈ (bus_message_callback GstMsg.eos w).2.2 := by
  simp [bus_message_callback, h]

/-- C6, witness: the three event kinds delivered on the started session. -/
theorem bus_callback_event_dispatch_witness :
    wPlay.st.main_loop = true ∧
    (((bus_message_callback (GstMsg.error "decode failed") wPlay).2.1.st.last_error =
        "GStreamer Error: " ++ "decode failed") ∧
     Eff.quitLoop ∈ (bus_message_callback (GstMsg.error "decode failed") wPlay).2.2 ∧
     (bus_message_callback (GstMsg.error "decode failed") wPlay).1 = true ∧
     (bus_message_callback (GstMsg.warning "decode failed") wPlay).2.1 = wPlay ∧
     Eff.quitLoop ∉ (bus_message_callback (GstMsg.warning "decode failed") wPlay).2.2 ∧
     (bus_message_callback GstMsg.eos wPlay).2.1 = wPlay ∧
     Eff.quitLoop ∈ (bus_message_callback GstMsg.eos wPlay).2.2) :=
  ⟨by decide, bus_callback_event_dispatch "decode failed" wPlay (by decide)⟩

/-- C7: on an initialized session with a constructed pipeline, the only
timed wait in the trace of stop() is the single bus pop bounded by
3 * GST_SECOND; whatever the wait outcome (EOS, error or timeout), the
resulting state is the same and the trace still contains the unconditional
force to the NULL state; and the thread join, the only other potentially
blocking step, happens only directly after the main loop is told to quit. -/
theorem stop_bounded_wait (env1 env2 : StopEnv) (w : World)
    (hinit : w.st.is_initialized = true) (hpipe : w.st.pipeline = true) :
    (stop_pipeline env1 w).2.filter isTimedWait =
      [Eff.busTimedPop (3 * GST_SECOND)] ∧
    Eff.setStateNull ∈ (stop_pipeline env1 w).2 ∧
    (stop_pipeline env1 w).1 = (stop_pipeline env2 w).1 ∧
    (Eff.joinThread ∈ (stop_pipeline env1 w).2 →
      ∃ l1 l2, (stop_pipeline env1 w).2 =
        l1 ++ Eff.quitLoop :: Eff.joinThread :: l2) := by
  obtain ⟨st, alloc, bin⟩ := w
  simp only at hinit hpipe
  refine ⟨?_, ?_, ?_, ?_⟩
  · by_cases hm : st.main_loop <;> by_cases ha : st.appsrc <;>
      rcases env1 with ⟨_ | v1⟩ <;>
        simp [stop_pipeline, isTimedWait, hinit, hpipe, hm, ha]
  · by_cases hm : st.main_loop <;> by_cases ha : st.appsrc <;>
      rcases env1 with ⟨_ | v1⟩ <;>
        simp [stop_pipeline, hinit, hpipe, hm, ha]
  · by_cases hm : st.main_loop <;> simp [stop_pipeline, hinit, hm]
  · intro hj
    by_cases hm : st.main_loop
    · by_cases ha : st.appsrc
      · rcases env1 with ⟨_ | v1⟩
        · exact ⟨[Eff.sendEOS, Eff.busTimedPop (3 * GST_SECOND), Eff.setStateNull],
            [Eff.unrefLoop], by simp [stop_pipeline, hinit, hpipe, hm, ha]⟩
        · exact ⟨[Eff.sendEOS, Eff.busTimedPop (3 * GST_SECOND), Eff.unrefMsg,
            Eff.setStateNull], [Eff.unrefLoop],
            by simp [stop_pipeline, hinit, hpipe, hm, ha]⟩
      · rcases env1 with ⟨_ | v1⟩
        · exact ⟨[Eff.busTimedPop (3 * GST_SECOND), Eff.setStateNull],
            [Eff.unrefLoop], by simp [stop_pipeline, hinit, hpipe, hm, ha]⟩
        · exact ⟨[Eff.busTimedPop (3 * GST_SECOND), Eff.unrefMsg, Eff.setStateNull],
            [Eff.unrefLoop], by simp [stop_pipeline, hinit, hpipe, hm, ha]⟩
    · exact absurd hj (by
        by_cases ha : st.appsrc <;> rcases env1 with ⟨_ | v1⟩ <;>
          simp [stop_pipeline, hinit, hpipe, hm, ha])

/-- C7, witness: stop on the started session, with an EOS confirmation and
with a timeout. -/
theorem stop_bounded_wait_witness :
    wPlay.st.is_initialized = true ∧
    wPlay.st.pipeline = true ∧
    ((stop_pipeline msgEos wPlay).2.filter isTimedWait =
       [Eff.busTimedPop (3 * GST_SECOND)] ∧
     Eff.setStateNull ∈ (stop_pipeline msgEos wPlay).2 ∧
     (stop_pipeline msgEos wPlay).1 = (stop_pipeline msgNone wPlay).1 ∧
     (Eff.joinThread ∈ (stop_pipeline msgEos wPlay).2 →
       ∃ l1 l2, (stop_pipeline msgEos wPlay).2 =
         l1 ++ Eff.quitLoop :: Eff.joinThread :: l2)) :=
  ⟨by decide, by decide,
   stop_bounded_wait msgEos msgNone wPlay (by decide) (by decide)⟩

/-- One step of the last-error cell: either untouched or set to some
nonempty message. -/
def errorEvolution (oldE newE : String) : Prop := newE = oldE ∨ newE ≠ ""

/-- C9: the ErrorRecord is never cleared.  For every operation of the API
and every environment outcome: a successful initialize, start or feed
leaves last_error unchanged; every operation either leaves last_error
unchanged or sets it to a nonempty message; stop never writes it at all;
the bus callback writes only the nonempty prefixed message on Error and
leaves it unchanged on Warning and EndOfStream; and getLastError is a pure
snapshot.  So the error of a failed session is still readable after a
later successful re-initialize. -/
theorem error_record_evolution (ienv : InitEnv) (sr ch br : Int)
    (op : String) (senv : StartEnv) (fenv : FeedEnv) (buf : List Int)
    (sz : Int) (penv : StopEnv) (m : String) (w : World) :
    (((init_pipeline ienv sr ch op br w).1 = true →
        (init_pipeline ienv sr ch op br w).2.1.st.last_error =
          w.st.last_error) ∧
      errorEvolution w.st.last_error
        (init_pipeline ienv sr ch op br w).2.1.st.last_error) ∧
    (((start_pipeline senv w).1 = true →
        (start_pipeline senv w).2.1.st.last_error = w.st.last_error) ∧
      errorEvolution w.st.last_error
        (start_pipeline senv w).2.1.st.last_error) ∧
    (((feed_audio_data fenv buf sz w).1 = true →
        (feed_audio_data fenv buf sz w).2.1.st.last_error =
          w.st.last_error) ∧
      errorEvolution w.st.last_error
        (feed_audio_data fenv buf sz w).2.1.st.last_error) ∧
    ((stop_pipeline penv w).1.st.last_error = w.st.last_error) ∧
    errorEvolution w.st.last_error
      (bus_message_callback (GstMsg.error m) w).2.1.st.last_error ∧
    ((bus_message_callback (GstMsg.warning m) w).2.1.st.last_error =
      w.st.last_error) ∧
    ((bus_message_callback GstMsg.eos w).2.1.st.last_error =
      w.st.last_error) ∧
    (get_last_error w = w.st.last_error) := by
  refine ⟨⟨?_, ?_⟩, ⟨?_, ?_⟩, ⟨?_, ?_⟩, ?_, ?_, ?_, ?_, ?_⟩
  · by_cases hi : w.st.is_initialized = true <;>
      by_cases hc : (ienv.pipelineOk && ienv.appsrcOk && ienv.audioconvertOk &&
          ienv.audioresampleOk && ienv.opusencOk && ienv.oggmuxOk &&
          ienv.filesinkOk) = true <;>
        by_cases hl : ienv.linkOk = true <;>
          simp [init_pipeline, hi, hc, hl, cleanup_preserves_error]
  · by_cases hi : w.st.is_initialized = true <;>
      by_cases hc : (ienv.pipelineOk && ienv.appsrcOk && ienv.audioconvertOk &&
          ienv.audioresampleOk && ienv.opusencOk && ienv.oggmuxOk &&
          ienv.filesinkOk) = true <;>
        by_cases hl : ienv.linkOk = true <;>
          simp [init_pipeline, errorEvolution, hi, hc, hl,
            cleanup_preserves_error]
  · by_cases hi : w.st.is_initialized = true
    · by_cases hp : w.st.is_playing = true
      · simp [start_pipeline, hi, hp]
      · rcases ht : senv.threadOk with _ | _ <;>
          rcases hs : senv.setPlayingOk with _ | _ <;>
            simp [start_pipeline, hi, hp, ht, hs]
    · simp [start_pipeline, hi]
  · by_cases hi : w.st.is_initialized = true
    · by_cases hp : w.st.is_playing = true
      · simp [start_pipeline, errorEvolution, hi, hp]
      · rcases ht : senv.threadOk with _ | _ <;>
          rcases hs : senv.setPlayingOk with _ | _ <;>
            simp [start_pipeline, errorEvolution, hi, hp, ht, hs]
    · simp [start_pipeline, errorEvolution, hi]
  · by_cases hp : w.st.is_playing = false
    · simp [feed_audio_data, hp]
    · by_cases hg : fenv.getBufferOk = false
      · simp [feed_audio_data, hp, hg]
      · by_cases ha : fenv.allocOk = false
        · simp [feed_audio_data, hp, hg, ha]
        · by_cases hm2 : fenv.mapOk = false
          · simp [feed_audio_data, hp, hg, ha, hm2]
          · by_cases hf : fenv.flowRet = GST_FLOW_OK <;>
              simp [feed_audio_data, hp, hg, ha, hm2, hf]
  · by_cases hp : w.st.is_playing = false
    · simp [feed_audio_data, errorEvolution, hp]
    · by_cases hg : fenv.getBufferOk = false
      · simp [feed_audio_data, errorEvolution, hp, hg]
      · by_cases ha : fenv.allocOk = false
        · simp [feed_audio_data, errorEvolution, hp, hg, ha]
        · by_cases hm2 : fenv.mapOk = false
          · simp [feed_audio_data, errorEvolution, hp, hg, ha, hm2]
          · by_cases hf : fenv.flowRet = GST_FLOW_OK
            · simp [feed_audio_data, errorEvolution, hp, hg, ha, hm2, hf]
            · have hne := append_left_ne_empty
                "Failed to push buffer to pipeline (flow error: "
                (toString fenv.flowRet ++ ")") (by decide)
              simp [feed_audio_data, errorEvolution, hp, hg, ha, hm2, hf, hne]
  · exact stop_preserves_error penv w
  · refine Or.inr ?_
    simpa [bus_message_callback] using
      append_left_ne_empty "GStreamer Error: " m (by decide)
  · simp [bus_message_callback]
  · simp [bus_message_callback]
  · rfl

/-- C9, witness: a successful initialize from the zeroed state leaves the
(empty) last_error untouched, and stop leaves it untouched as well. -/
theorem error_record_evolution_witness :
    (init_pipeline happyInitEnv 48000 2 "/tmp/out.ogg" 128000
        world0).2.1.st.last_error = world0.st.last_error ∧
    (stop_pipeline msgNone world0).1.st.last_error = world0.st.last_error :=
  ⟨(error_record_evolution happyInitEnv 48000 2 128000 "/tmp/out.ogg"
      happyStartEnv feedEnvOk [] 0 msgNone "x" world0).1.1 (by decide),
   (error_record_evolution happyInitEnv 48000 2 128000 "/tmp/out.ogg"
      happyStartEnv feedEnvOk [] 0 msgNone "x" world0).2.2.2.1⟩

end NativeAudioBridge
